import Mathlib

/-!
Verification of the Air-Simulator-Go media-access and reliable-delivery engine.

The Go source is shallowly embedded: each Go method becomes a Lean function on
an explicit state record; `time.Now()` becomes an explicit `now : Int`
(nanoseconds); Go's `sync.Map` becomes an association list; the random draws
become explicit rational parameters; goroutine effects (the transmission-end
handler spawned by `Channel.AttemptTransmit`) become separate step functions.
-/

namespace AirSim

/-! ## Priority model (config/config.go: `type Priority string` and constants) -/

abbrev Priority := String

def CriticalPriority : Priority := "CRITICAL"
def HighPriority : Priority := "HIGH"
def MediumPriority : Priority := "Medium"
def LowPriority : Priority := "LOW"

/-- Modelled from the spec: the method `config.Priority.Value()` is called by
the simulation package but its definition is not among the provided source
files.  Spec section 3 specifies "PriorityLevel: ordered set
{Critical > High > Medium > Low}, each with a numeric weight used for queue
ordering"; any strictly monotone weight assignment realises it. -/
def priorityValue (p : Priority) : Int :=
  if p = CriticalPriority then 4
  else if p = HighPriority then 3
  else if p = MediumPriority then 2
  else if p = LowPriority then 1
  else 0

/-! ## Message model (messages.go: ACARSBaseMessage, AcknowledgementData,
the `ACARSMessageInterface` implementations) -/

def MsgTypeAck : String := "ACKNOWLEDGEMENT"

/-- AcknowledgementData as used by simulation/center.go (it populates
`OriginMessagePriority`, `OriginalMessageID` and `Status`). -/
structure AcknowledgementData where
  originMessagePriority : Priority
  originalMessageID : String
  status : String
deriving Repr, DecidableEq

/-- Models the result of `msg.GetData()` followed by the type assertion to
`json.RawMessage` and `json.Unmarshal` into `AcknowledgementData`, as
performed by `Aircraft.StartListening`.  A payload is either a raw JSON blob
that parses to an `AcknowledgementData`, a raw blob that fails to parse, or a
non-raw value (type assertion fails). -/
inductive MsgData where
  | ackRaw (d : AcknowledgementData)
  | rawUnparsable
  | notRaw
deriving Repr, DecidableEq

/-- ACARSBaseMessage header (messages.go); `Timestamp` is in nanoseconds. -/
structure ACARSBaseMessage where
  aircraftICAOAddress : String
  flightID : String
  messageID : String
  timestamp : Int
  type : String
deriving Repr, DecidableEq

/-- One value of the Go interface `ACARSMessageInterface`: a header, the
priority returned by `GetPriority()`, and the payload returned by
`GetData()`. -/
structure Msg where
  base : ACARSBaseMessage
  priority : Priority
  data : MsgData
deriving Repr, DecidableEq

instance : Inhabited Msg :=
  ⟨{ base := { aircraftICAOAddress := "", flightID := "", messageID := "",
               timestamp := 0, type := "" },
     priority := LowPriority, data := MsgData.notRaw }⟩

/-! ## Channel (channel.go) -/

/-- Mutable state of a `Channel`: the lock-protected busy flag and
statistics.  `inTransit` carries the message handed to the asynchronous
transmission goroutine (delivered to `messageQueue` when the goroutine
finishes). -/
structure ChannelState where
  isBusy : Bool
  lastBusyTimestamp : Int
  inTransit : Option Msg
  totalMessagesTransmitted : Nat
  totalBusyTime : Int
deriving Repr, DecidableEq

namespace Channel

/-- `Channel.IsBusy`: lock-protected read of the busy flag. -/
def IsBusy (c : ChannelState) : Bool := c.isBusy

/-- Synchronous part of `Channel.AttemptTransmit` (channel.go 245-272): under
the lock, if busy return false leaving the state untouched; otherwise set
busy, record the commit timestamp, hand `msg` to the spawned transmission
goroutine, and return true. -/
def AttemptTransmit (c : ChannelState) (msg : Msg) (now : Int) :
    Bool × ChannelState :=
  if c.isBusy then (false, c)
  else (true, { c with isBusy := true, lastBusyTimestamp := now,
                       inTransit := some msg })

/-- End of the transmission goroutine spawned by `AttemptTransmit`: after
sleeping `transmissionTime` it pushes the message to the dispatch queue,
increments the transmitted counter, clears busy and accumulates busy time. -/
def finishTransmission (c : ChannelState) (now : Int) : ChannelState :=
  { c with isBusy := false, inTransit := none,
           totalMessagesTransmitted := c.totalMessagesTransmitted + 1,
           totalBusyTime := c.totalBusyTime + (now - c.lastBusyTimestamp) }

end Channel

/-- A serialization of `AttemptTransmit` calls on one channel with no
intervening transmission-end event: each call is a pair of the message and
the instant of the call; the outcomes are returned in order together with the
final channel state. -/
def attemptAll (c : ChannelState) : List (Msg × Int) →
    List Bool × ChannelState
  | [] => ([], c)
  | (m, t) :: rest =>
    let r := Channel.AttemptTransmit c m t
    let rec' := attemptAll r.2 rest
    (r.1 :: rec'.1, rec'.2)

lemma attemptTransmit_busy (c : ChannelState) (m : Msg) (t : Int)
    (h : c.isBusy = true) : Channel.AttemptTransmit c m t = (false, c) := by
  simp [Channel.AttemptTransmit, h]

lemma attemptTransmit_idle (c : ChannelState) (m : Msg) (t : Int)
    (h : c.isBusy = false) :
    Channel.AttemptTransmit c m t =
      (true, { c with isBusy := true, lastBusyTimestamp := t,
                      inTransit := some m }) := by
  simp [Channel.AttemptTransmit, h]

lemma attemptAll_busy (c : ChannelState) (h : c.isBusy = true) :
    ∀ calls : List (Msg × Int),
      (attemptAll c calls).1.count true = 0 ∧ (attemptAll c calls).2 = c := by
  intro calls
  induction calls with
  | nil => simp [attemptAll]
  | cons hd tl ih =>
    obtain ⟨m, t⟩ := hd
    simp only [attemptAll, attemptTransmit_busy c m t h]
    simpa [List.count_cons] using ih

/-! ## CommunicationSystem (simulation/communication_system.go) -/

/-- Result of `SelectChannelForMessage`: which of the two channels the
message is routed to. -/
inductive ChannelChoice where
  | primary
  | backup
deriving Repr, DecidableEq

/-- Go map read `cs.switchoverProbabilities[priority]`: a missing key yields
the zero value `0`. -/
def lookupProb (probs : List (Priority × ℚ)) (p : Priority) : ℚ :=
  match probs.find? (fun kv => kv.1 = p) with
  | some kv => kv.2
  | none => 0

/-- `CommunicationSystem.SelectChannelForMessage` (communication_system.go
66-94).  `hasBackup` is `cs.BackupChannel != nil`, `primaryBusy` the result
of `cs.PrimaryChannel.IsBusy()`, and `r` the value drawn by
`rand.Float64()` (uniform in `[0,1)`). -/
def SelectChannelForMessage (hasBackup primaryBusy : Bool)
    (switchoverProbabilities : List (Priority × ℚ)) (msg : Msg) (r : ℚ) :
    ChannelChoice :=
  if !hasBackup || !primaryBusy then ChannelChoice.primary
  else
    let switchoverP := lookupProb switchoverProbabilities msg.priority
    if r < switchoverP then ChannelChoice.backup
    else ChannelChoice.primary

/-! ## Autonomous-mode send loop (simulation/aircraft.go 101-169,
`Aircraft.SendMessage`) -/

/-- Observable outcome of one round of the p-persistent CSMA polling loop:
the channel was busy; it was idle but the probability draw deferred; the
draw passed but `AttemptTransmit` lost the race (collision); or
`AttemptTransmit` committed. -/
inductive PollEvent where
  | busy
  | idleDefer
  | idleCollide
  | idleCommit
deriving Repr, DecidableEq

/-- The communication statistics counters of an `Aircraft`. -/
structure TxStats where
  totalTxAttempts : Nat := 0
  totalCollisions : Nat := 0
  successfulTx : Nat := 0
  totalRetries : Nat := 0
  totalRqTunnel : Nat := 0
  totalFailRqTunnel : Nat := 0
deriving Repr, DecidableEq

/-- One execution of the inner p-persistent CSMA loop (`for { ... }` in
`SendMessage`), driven by the oracle of per-round outcomes.  `fuel` bounds
how many rounds are examined: the Go loop itself has no bound, so the result
is `none` when no commit happens within `fuel` rounds. -/
def csmaPhase (oracle : Nat → PollEvent) :
    Nat → Nat → TxStats → Option TxStats
  | 0, _, _ => none
  | fuel + 1, round, s =>
    let s := { s with totalRqTunnel := s.totalRqTunnel + 1 }
    match oracle round with
    | PollEvent.busy =>
      csmaPhase oracle fuel (round + 1)
        { s with totalFailRqTunnel := s.totalFailRqTunnel + 1 }
    | PollEvent.idleDefer => csmaPhase oracle fuel (round + 1) s
    | PollEvent.idleCollide =>
      csmaPhase oracle fuel (round + 1)
        { s with totalTxAttempts := s.totalTxAttempts + 1,
                 totalCollisions := s.totalCollisions + 1 }
    | PollEvent.idleCommit =>
      some { s with totalTxAttempts := s.totalTxAttempts + 1 }

/-- Terminal state of a message in the send/ack/retry state machine. -/
inductive SendOutcome where
  | acknowledged
  | exhausted
deriving Repr, DecidableEq

/-- The retry loop of `Aircraft.SendMessage`
(`for retries := 0; retries < config.MaxRetries; retries++`).  `csma c` is
the poll-event oracle of cycle `c`, `ack c` tells whether the ACK arrives
before the timeout in cycle `c`, and `retries` is the loop index.  The loop
guard `retries < maxRetries` is carried structurally as
`remaining = maxRetries - retries`: `remaining = 0` is loop exit, i.e. the
message is dropped (Exhausted). -/
def sendMessageAux (csma : Nat → Nat → PollEvent) (ack : Nat → Bool)
    (fuel : Nat) : Nat → Nat → TxStats → Option (SendOutcome × TxStats)
  | 0, _, s => some (SendOutcome.exhausted, s)
  | remaining + 1, retries, s =>
    let s := if retries > 0 then
        { s with totalRetries := s.totalRetries + 1 } else s
    match csmaPhase (csma retries) fuel 0 s with
    | none => none
    | some s' =>
      if ack retries then
        some (SendOutcome.acknowledged,
          { s' with successfulTx := s'.successfulTx + 1 })
      else
        sendMessageAux csma ack fuel remaining (retries + 1) s'

/-- `Aircraft.SendMessage` in autonomous mode, starting from zeroed per-call
statistics. -/
def SendMessage (csma : Nat → Nat → PollEvent) (ack : Nat → Bool)
    (fuel maxRetries : Nat) : Option (SendOutcome × TxStats) :=
  sendMessageAux csma ack fuel maxRetries 0 {}

/-- `config.MaxRetries` (config/config.go). -/
def MaxRetries : Nat := 16

/-- `config.AckTimeout` (config/config.go), in nanoseconds. -/
def ackTimeoutNs : Int := 3000000000

end AirSim

/-!
## Go's `sort.Slice` (pdqsort)

`Aircraft.EnqueueMessage` sorts its outbound queue with `sort.Slice`, which
is documented as **not stable**.  To settle the queue-ordering claims we
embed the actual sorting algorithm used by `sort.Slice` since Go 1.19
(`sort/zsortfunc.go`: pdqsort), operating on a `List α` with a boolean
comparator.  Loops whose Go index may temporarily leave `Nat` range, and the
main recursion, carry explicit fuel; fuel exhaustion returns the data
unchanged and is unreachable for the inputs evaluated here.
-/

namespace GoSort

variable {α : Type} [Inhabited α]

/-- `data.Less(i, j)` for a slice. -/
def goLess (less : α → α → Bool) (l : List α) (i j : Nat) : Bool :=
  less (l.getD i default) (l.getD j default)

/-- `data.Swap(i, j)` for a slice. -/
def goSwap (l : List α) (i j : Nat) : List α :=
  let xi := l.getD i default
  let xj := l.getD j default
  (l.set i xj).set j xi

/-- insertionSort inner loop: `for j := i; j > a && Less(j, j-1); j--`.
Every loop here carries structural fuel so that the whole development
reduces inside the kernel; every call site supplies fuel exceeding the
loop's iteration bound, so exhaustion (which returns the data unchanged) is
unreachable. -/
def insertionSortInner (less : α → α → Bool) :
    Nat → List α → Nat → Nat → List α
  | 0, l, _, _ => l
  | fuel + 1, l, a, j =>
    if a < j ∧ goLess less l j (j - 1) = true then
      insertionSortInner less fuel (goSwap l j (j - 1)) a (j - 1)
    else l

/-- insertionSort outer loop: `for i := a + 1; i < b; i++`. -/
def insertionSortOuter (less : α → α → Bool) :
    Nat → List α → Nat → Nat → Nat → List α
  | 0, l, _, _, _ => l
  | fuel + 1, l, a, i, b =>
    if i < b then
      insertionSortOuter less fuel (insertionSortInner less (i + 1) l a i) a
        (i + 1) b
    else l

def insertionSortGo (less : α → α → Bool) (l : List α) (a b : Nat) :
    List α :=
  insertionSortOuter less (b + 1) l a (a + 1) b

/-- siftDown: the child selected at `root` (the right child when it exists
and compares greater). -/
def siftChild (less : α → α → Bool) (l : List α) (root hi first : Nat) :
    Nat :=
  if 2 * root + 2 < hi ∧
      goLess less l (first + (2 * root + 1)) (first + (2 * root + 2)) = true
    then 2 * root + 2 else 2 * root + 1

/-- siftDown. -/
def siftDownLoop (less : α → α → Bool) :
    Nat → List α → Nat → Nat → Nat → List α
  | 0, l, _, _, _ => l
  | fuel + 1, l, root, hi, first =>
    if 2 * root + 1 < hi then
      let child := siftChild less l root hi first
      if goLess less l (first + root) (first + child) = false then l
      else siftDownLoop less fuel (goSwap l (first + root) (first + child))
        child hi first
    else l

/-- heapSort build phase: `for i := (hi-1)/2; i >= 0; i--`; `n` counts the
remaining iterations, the current index is `n - 1`. -/
def buildHeap (less : α → α → Bool) (l : List α) (n hi first : Nat) :
    List α :=
  match n with
  | 0 => l
  | n + 1 => buildHeap less (siftDownLoop less (hi + 1) l n hi first) n hi
      first

/-- heapSort pop phase: `for i := hi - 1; i >= 0; i--`. -/
def popHeap (less : α → α → Bool) (l : List α) (n first : Nat) : List α :=
  match n with
  | 0 => l
  | i + 1 =>
    popHeap less
      (siftDownLoop less (i + 1) (goSwap l first (first + i)) 0 i first) i
      first

def heapSortGo (less : α → α → Bool) (l : List α) (a b : Nat) : List α :=
  let hi := b - a
  popHeap less (buildHeap less l ((hi - 1) / 2 + 1) hi a) hi a

/-- reverseRange loop body; entered with `i = a`, `j = b - 1`. -/
def reverseRangeGo : Nat → List α → Nat → Nat → List α
  | 0, l, _, _ => l
  | fuel + 1, l, i, j =>
    if i < j then reverseRangeGo fuel (goSwap l i j) (i + 1) (j - 1) else l

/-- order2 with the swaps counter. -/
def order2Go (less : α → α → Bool) (l : List α) (a b swaps : Nat) :
    Nat × Nat × Nat :=
  if goLess less l b a then (b, a, swaps + 1) else (a, b, swaps)

/-- median of three indices; returns (index, swaps). -/
def medianGo (less : α → α → Bool) (l : List α) (a b c swaps : Nat) :
    Nat × Nat :=
  let r1 := order2Go less l a b swaps
  let r2 := order2Go less l r1.2.1 c r1.2.2
  let r3 := order2Go less l r1.1 r2.1 r2.2.2
  (r3.2.1, r3.2.2)

def medianAdjacentGo (less : α → α → Bool) (l : List α) (a swaps : Nat) :
    Nat × Nat :=
  medianGo less l (a - 1) a (a + 1) swaps

inductive SortedHint where
  | unknown
  | increasing
  | decreasing
deriving Repr, DecidableEq

/-- `maxSwaps = 4 * 3 = 12`. -/
def hintOfSwaps (swaps : Nat) : SortedHint :=
  if swaps = 0 then SortedHint.increasing
  else if swaps = 12 then SortedHint.decreasing
  else SortedHint.unknown

def choosePivotGo (less : α → α → Bool) (l : List α) (a b : Nat) :
    Nat × SortedHint :=
  let length := b - a
  let i := a + length / 4 * 1
  let j := a + length / 4 * 2
  let k := a + length / 4 * 3
  if 8 ≤ length then
    if 50 ≤ length then
      let r1 := medianAdjacentGo less l i 0
      let r2 := medianAdjacentGo less l j r1.2
      let r3 := medianAdjacentGo less l k r2.2
      let rm := medianGo less l r1.1 r2.1 r3.1 r3.2
      (rm.1, hintOfSwaps rm.2)
    else
      let rm := medianGo less l i j k 0
      (rm.1, hintOfSwaps rm.2)
  else (j, SortedHint.increasing)

/-- partialInsertionSort: advance `i` while in order. -/
def pisAdvance (less : α → α → Bool) : Nat → List α → Nat → Nat → Nat
  | 0, _, i, _ => i
  | fuel + 1, l, i, b =>
    if i < b ∧ goLess less l i (i - 1) = false then
      pisAdvance less fuel l (i + 1) b
    else i

def pisShiftLeft (less : α → α → Bool) : Nat → List α → Nat → List α
  | 0, l, _ => l
  | fuel + 1, l, j =>
    if 1 ≤ j ∧ goLess less l j (j - 1) = true then
      pisShiftLeft less fuel (goSwap l j (j - 1)) (j - 1)
    else l

def pisShiftRight (less : α → α → Bool) : Nat → List α → Nat → Nat → List α
  | 0, l, _, _ => l
  | fuel + 1, l, j, b =>
    if j < b ∧ goLess less l j (j - 1) = true then
      pisShiftRight less fuel (goSwap l j (j - 1)) (j + 1) b
    else l

def partialInsertionSortLoop (less : α → α → Bool) (a b : Nat) :
    Nat → List α → Nat → Bool × List α
  | 0, l, _ => (false, l)
  | steps + 1, l, i =>
    let i := pisAdvance less (b + 2) l i b
    if i = b then (true, l)
    else if b - a < 50 then (false, l)
    else
      let l := goSwap l i (i - 1)
      let l := if 2 ≤ i - a then pisShiftLeft less (b + 2) l (i - 1) else l
      let l := if 2 ≤ b - i then pisShiftRight less (b + 2) l (i + 1) b
        else l
      partialInsertionSortLoop less a b steps l i

def partialInsertionSortGo (less : α → α → Bool) (l : List α) (a b : Nat) :
    Bool × List α :=
  partialInsertionSortLoop less a b 5 l (a + 1)

/-- `bits.Len` (the number of bits of `n`), computed with structural fuel;
`fuel = n` halvings always suffice. -/
def bitsLenAux : Nat → Nat → Nat
  | 0, _ => 0
  | fuel + 1, n => if n = 0 then 0 else bitsLenAux fuel (n / 2) + 1

def bitsLen (n : Nat) : Nat := bitsLenAux n n

/-- xorshift PRNG used by breakPatterns (uint64 arithmetic). -/
def xorshiftNext (r : Nat) : Nat :=
  let r := (r ^^^ (r <<< 13)) % 18446744073709551616
  let r := r ^^^ (r >>> 7)
  (r ^^^ (r <<< 17)) % 18446744073709551616

def breakPatternsGo (l : List α) (a b : Nat) : List α :=
  let length := b - a
  if 8 ≤ length then
    let modulus := 2 ^ bitsLen length
    let idx := a + length / 4 * 2 - 1
    let r1 := xorshiftNext length
    let o1 := r1 % modulus
    let o1 := if length ≤ o1 then o1 - length else o1
    let l := goSwap l idx (a + o1)
    let r2 := xorshiftNext r1
    let o2 := r2 % modulus
    let o2 := if length ≤ o2 then o2 - length else o2
    let l := goSwap l (idx + 1) (a + o2)
    let r3 := xorshiftNext r2
    let o3 := r3 % modulus
    let o3 := if length ≤ o3 then o3 - length else o3
    goSwap l (idx + 2) (a + o3)
  else l

/-- partition: advance `i` while `Less(i, a)`. -/
def partitionInnerI (less : α → α → Bool) (l : List α) (a j : Nat) :
    Nat → Nat → Nat
  | 0, i => i
  | fuel + 1, i =>
    if i ≤ j ∧ goLess less l i a = true then
      partitionInnerI less l a j fuel (i + 1)
    else i

/-- partition: retreat `j` while `!Less(j, a)`. -/
def partitionInnerJ (less : α → α → Bool) (l : List α) (a i : Nat) :
    Nat → Nat → Nat
  | 0, j => j
  | fuel + 1, j =>
    if i ≤ j ∧ goLess less l j a = false then
      partitionInnerJ less l a i fuel (j - 1)
    else j

def partitionLoop (less : α → α → Bool) (a F : Nat) :
    Nat → List α → Nat → Nat → Nat × List α
  | 0, l, _, j => (j, l)
  | fuel + 1, l, i, j =>
    let i := partitionInnerI less l a j F i
    let j := partitionInnerJ less l a i F j
    if j < i then (j, l)
    else partitionLoop less a F fuel (goSwap l i j) (i + 1) (j - 1)

/-- partition(data, a, b, pivot) -> (newpivot, alreadyPartitioned, data). -/
def partitionGo (less : α → α → Bool) (l : List α) (a b pivot : Nat) :
    Nat × Bool × List α :=
  let F := b + 2
  let l := goSwap l a pivot
  let i := partitionInnerI less l a (b - 1) F (a + 1)
  let j := partitionInnerJ less l a i F (b - 1)
  if j < i then (j, true, goSwap l j a)
  else
    let l := goSwap l i j
    let r := partitionLoop less a F F l (i + 1) (j - 1)
    (r.1, false, goSwap r.2 r.1 a)

/-- partitionEqual: advance `i` while `!Less(a, i)`. -/
def peInnerI (less : α → α → Bool) (l : List α) (a j : Nat) :
    Nat → Nat → Nat
  | 0, i => i
  | fuel + 1, i =>
    if i ≤ j ∧ goLess less l a i = false then peInnerI less l a j fuel (i + 1)
    else i

/-- partitionEqual: retreat `j` while `Less(a, j)`. -/
def peInnerJ (less : α → α → Bool) (l : List α) (a i : Nat) :
    Nat → Nat → Nat
  | 0, j => j
  | fuel + 1, j =>
    if i ≤ j ∧ goLess less l a j = true then peInnerJ less l a i fuel (j - 1)
    else j

def partitionEqualLoop (less : α → α → Bool) (a F : Nat) :
    Nat → List α → Nat → Nat → Nat × List α
  | 0, l, i, _ => (i, l)
  | fuel + 1, l, i, j =>
    let i := peInnerI less l a j F i
    let j := peInnerJ less l a i F j
    if j < i then (i, l)
    else partitionEqualLoop less a F fuel (goSwap l i j) (i + 1) (j - 1)

/-- partitionEqual(data, a, b, pivot) -> (newpivot, data). -/
def partitionEqualGo (less : α → α → Bool) (l : List α) (a b pivot : Nat) :
    Nat × List α :=
  let F := b + 2
  partitionEqualLoop less a F F (goSwap l a pivot) (a + 1) (b - 1)

/-- pdqsort main recursion (fueled: each unit of fuel is one iteration of the
Go `for` loop or one recursive call). -/
def pdqsortGo (less : α → α → Bool) :
    Nat → List α → Nat → Nat → Nat → Bool → Bool → List α
  | 0, l, _, _, _, _, _ => l
  | fuel + 1, l, a, b, limit, wasBalanced, wasPartitioned =>
    let length := b - a
    if length ≤ 12 then insertionSortGo less l a b
    else if limit = 0 then heapSortGo less l a b
    else
      let pr := if wasBalanced = false then (breakPatternsGo l a b, limit - 1)
        else (l, limit)
      let l := pr.1
      let limit := pr.2
      let cp := choosePivotGo less l a b
      let tr := if cp.2 = SortedHint.decreasing then
          (reverseRangeGo (b + 2) l a (b - 1), (b - 1) - (cp.1 - a),
            SortedHint.increasing)
        else (l, cp.1, cp.2)
      let l := tr.1
      let pivot := tr.2.1
      let hint := tr.2.2
      let ps := if wasBalanced ∧ wasPartitioned ∧ hint = SortedHint.increasing
        then partialInsertionSortGo less l a b
        else (false, l)
      if ps.1 then ps.2
      else
        let l := ps.2
        if 0 < a ∧ goLess less l (a - 1) pivot = false then
          let pe := partitionEqualGo less l a b pivot
          pdqsortGo less fuel pe.2 pe.1 b limit wasBalanced wasPartitioned
        else
          let pt := partitionGo less l a b pivot
          let mid := pt.1
          let wasPartitioned := pt.2.1
          let l := pt.2.2
          let leftLen := mid - a
          let rightLen := b - mid
          let wasBalanced := decide (length / 8 ≤ min leftLen rightLen)
          if leftLen < rightLen then
            let l := pdqsortGo less fuel l a mid limit true true
            pdqsortGo less fuel l (mid + 1) b limit wasBalanced wasPartitioned
          else
            let l := pdqsortGo less fuel l (mid + 1) b limit true true
            pdqsortGo less fuel l a mid limit wasBalanced wasPartitioned

/-- `sort.Slice(x, less)`: `limit := bits.Len(uint(length))`, then pdqsort
over the whole slice. -/
def sortSliceGo (less : α → α → Bool) (l : List α) : List α :=
  let n := l.length
  pdqsortGo less (8 * n + 64) l 0 n (bitsLen n) true true

end GoSort


namespace AirSim

/-! ## Aircraft MARL state (simulation/aircraft.go) -/

/-- Discrete action of an agent (agent_types.go). -/
inductive AgentAction where
  | wait
  | sendPrimary
  | sendBackup
deriving Repr, DecidableEq

/-- `ackWaiter` (simulation/aircraft.go 216-219): the in-flight message and
its send timestamp. -/
structure AckWaiter where
  message : Msg
  sendTime : Int
deriving Repr, DecidableEq

/-- `MAX_PENDING_ACKS` (simulation/aircraft.go 213). -/
def MAX_PENDING_ACKS : Nat := 3

/-- Mutable communication state of an `Aircraft` in discrete-stepped mode:
the outbound queue, the `ackWaiters` sync.Map (association list), the reward
bank, and the statistics counters. -/
structure AircraftState where
  outboundQueue : List Msg
  ackWaiters : List (String × AckWaiter)
  pendingReward : Int
  totalTxAttempts : Nat
  totalCollisions : Nat
  successfulTx : Nat
  totalRetries : Nat
  totalRqTunnel : Nat
  totalFailRqTunnel : Nat
deriving Repr, DecidableEq

/-- The state of a freshly constructed `Aircraft` (`NewAircraft`). -/
def initialAircraftState : AircraftState :=
  { outboundQueue := [], ackWaiters := [], pendingReward := 0,
    totalTxAttempts := 0, totalCollisions := 0, successfulTx := 0,
    totalRetries := 0, totalRqTunnel := 0, totalFailRqTunnel := 0 }

/-- `sync.Map.Store`: insert, replacing an existing entry with the key. -/
def storeWaiter (m : List (String × AckWaiter)) (k : String) (v : AckWaiter) :
    List (String × AckWaiter) :=
  if m.any (fun kv => kv.1 = k) then
    m.map (fun kv => if kv.1 = k then (k, v) else kv)
  else m ++ [(k, v)]

/-- `sync.Map.Delete`: remove the entry with the key, if present. -/
def deleteWaiter (m : List (String × AckWaiter)) (k : String) :
    List (String × AckWaiter) :=
  m.filter (fun kv => kv.1 ≠ k)

/-- `sync.Map.Load`. -/
def loadWaiter (m : List (String × AckWaiter)) (k : String) :
    Option AckWaiter :=
  (m.find? (fun kv => kv.1 = k)).map (fun kv => kv.2)

/-- `sync.Map.LoadAndDelete`: atomically look up and remove. -/
def loadAndDeleteWaiter (m : List (String × AckWaiter)) (k : String) :
    Option AckWaiter × List (String × AckWaiter) :=
  (loadWaiter m k, deleteWaiter m k)

/-- The `sort.Slice` comparator of `Aircraft.EnqueueMessage`
(simulation/aircraft.go 294-296): descending priority weight. -/
def priorityLess (x y : Msg) : Bool :=
  decide (priorityValue x.priority > priorityValue y.priority)

/-- `Aircraft.EnqueueMessage` (simulation/aircraft.go 288-298): append, then
`sort.Slice` the whole queue by descending priority weight. -/
def enqueueMessage (a : AircraftState) (msg : Msg) : AircraftState :=
  { a with outboundQueue :=
      GoSort.sortSliceGo priorityLess (a.outboundQueue ++ [msg]) }

/-- `Aircraft.peekHighestPriorityMessage` (simulation/aircraft.go 300-307). -/
def peekHighestPriorityMessage (a : AircraftState) : Option Msg :=
  a.outboundQueue.head?

/-- `Aircraft.removeMessageFromQueue` (simulation/aircraft.go 310-319):
remove the first queued message with the given id. -/
def removeMessageFromQueue : List Msg → String → List Msg
  | [], _ => []
  | m :: rest, messageID =>
    if m.base.messageID = messageID then rest
    else m :: removeMessageFromQueue rest messageID

/-- `Aircraft.attemptSendOnChannel` (simulation/aircraft.go 460-488).
`busyAtCheck` is the result of the `channel.IsBusy()` call, a separate lock
acquisition from the later `AttemptTransmit` (whose input state is `ch`), so
the two can disagree under concurrency. -/
def attemptSendOnChannel (a : AircraftState) (msg : Msg) (busyAtCheck : Bool)
    (ch : ChannelState) (now : Int) : ℚ × AircraftState × ChannelState :=
  let a := { a with totalRqTunnel := a.totalRqTunnel + 1 }
  if busyAtCheck then
    (-1, { a with totalFailRqTunnel := a.totalFailRqTunnel + 1 }, ch)
  else
    let a := { a with totalTxAttempts := a.totalTxAttempts + 1 }
    let r := Channel.AttemptTransmit ch msg now
    if r.1 then
      let msgID := msg.base.messageID
      let a := { a with
        outboundQueue := removeMessageFromQueue a.outboundQueue msgID,
        ackWaiters := storeWaiter a.ackWaiters msgID ⟨msg, now⟩ }
      (3, a, r.2)
    else
      (-5, { a with totalCollisions := a.totalCollisions + 1 }, r.2)

/-- Handling of one timed-out waiter inside `Aircraft.Step` (simulation/
aircraft.go 400-406): delete it from the waiters, count a retry, and
re-enqueue the original message. -/
def sweepStep (st : AircraftState) (kv : String × AckWaiter) :
    AircraftState :=
  let st := { st with ackWaiters := deleteWaiter st.ackWaiters kv.1 }
  let st := { st with totalRetries := st.totalRetries + 1 }
  enqueueMessage st kv.2.message

/-- The ack-timeout sweep at the top of `Aircraft.Step` (simulation/
aircraft.go 385-406): collect every waiter whose ACK has timed out, then
apply `sweepStep` to each. -/
def sweepTimeouts (a : AircraftState) (now : Int) : AircraftState :=
  let expired := a.ackWaiters.filter
    (fun kv => decide (now - kv.2.sendTime > ackTimeoutNs))
  expired.foldl sweepStep a

/-- `Aircraft.Step` (simulation/aircraft.go 382-458).  `primary` and
`backup` are the channel states at the moment the (at most one)
`IsBusy`/`AttemptTransmit` pair runs; the returned triple is (reward, agent
state, primary state, backup state). -/
def aircraftStep (a : AircraftState) (action : AgentAction)
    (primary : ChannelState) (backup : Option ChannelState) (now : Int) :
    ℚ × AircraftState × ChannelState × Option ChannelState :=
  let reward : ℚ := (a.pendingReward : ℚ)
  let a := { a with pendingReward := 0 }
  let a := sweepTimeouts a now
  let pendingAcks := a.ackWaiters.length
  match peekHighestPriorityMessage a with
  | none =>
    if action = AgentAction.sendPrimary ∨ action = AgentAction.sendBackup then
      (reward - 10, a, primary, backup)
    else (reward + 1, a, primary, backup)
  | some msgToSend =>
    if MAX_PENDING_ACKS ≤ pendingAcks then
      if action = AgentAction.sendPrimary ∨ action = AgentAction.sendBackup
      then (reward - 10, a, primary, backup)
      else (reward + 1, a, primary, backup)
    else
      match action with
      | AgentAction.wait =>
        let queueLen := a.outboundQueue.length
        let penalty : ℚ := 1 + (queueLen : ℚ) * (1 / 5) +
          ((priorityValue msgToSend.priority : ℚ)) * (1 / 10)
        (reward - penalty, a, primary, backup)
      | AgentAction.sendPrimary =>
        let r := attemptSendOnChannel a msgToSend (Channel.IsBusy primary)
          primary now
        (reward + r.1, r.2.1, r.2.2, backup)
      | AgentAction.sendBackup =>
        match backup with
        | some b =>
          let r := attemptSendOnChannel a msgToSend (Channel.IsBusy b) b now
          (reward + r.1, r.2.1, primary, some r.2.2)
        | none => (reward - 10, a, primary, backup)

/-- One iteration of the `Aircraft.StartListening` loop (simulation/
aircraft.go 321-348): non-ACK messages are skipped, the payload is parsed as
`AcknowledgementData`, and a matching pending waiter is atomically removed
(`LoadAndDelete`) with the reward bank and success counter updated. -/
def processInboundMessage (a : AircraftState) (msg : Msg) : AircraftState :=
  if msg.base.type ≠ MsgTypeAck then a
  else
    match msg.data with
    | MsgData.notRaw => a
    | MsgData.rawUnparsable => a
    | MsgData.ackRaw ackData =>
      let r := loadAndDeleteWaiter a.ackWaiters ackData.originalMessageID
      match r.1 with
      | some _ =>
        { a with ackWaiters := r.2,
                 pendingReward := a.pendingReward + 20,
                 successfulTx := a.successfulTx + 1 }
      | none => a

/-- The `Aircraft.StartListening` loop over a finite inbound trace. -/
def startListening (a : AircraftState) (inbound : List Msg) : AircraftState :=
  inbound.foldl processInboundMessage a

end AirSim

namespace AirSim

/-! ## GroundControlCenter (simulation/center.go) -/

/-- Mutable communication state of a `GroundControlCenter`. -/
structure GccState where
  outboundQueue : List Msg
  totalTxAttempts : Nat
  totalCollisions : Nat
  successfulTx : Nat
  totalRqTunnel : Nat
  totalFailRqTunnel : Nat
deriving Repr, DecidableEq

/-- Predicate of the expiry check in `GroundControlCenter.Step`
(center.go 188): `time.Since(msg.GetBaseMessage().Timestamp) >
config.AckTimeout`. -/
def gccExpired (now : Int) (m : Msg) : Bool :=
  decide (now - m.base.timestamp > ackTimeoutNs)

/-- The expired-ACK cleanup loop of `GroundControlCenter.Step`
(center.go 183-201): walk the queue with index `i`, removing every message
whose age exceeds the ack timeout (reward -20 each), advancing `i` only past
survivors.  Returns the surviving queue and the accumulated reward. -/
def gccSweepLoop (now : Int) (q : List Msg) (i : Nat) (reward : ℚ) :
    List Msg × ℚ :=
  if h : i < q.length then
    if gccExpired now (q.get ⟨i, h⟩) then
      gccSweepLoop now (q.eraseIdx i) i (reward - 20)
    else gccSweepLoop now q (i + 1) reward
  else (q, reward)
termination_by q.length - i
decreasing_by
  · simp only [List.length_eraseIdx_of_lt h]; omega
  · omega

/-- `GroundControlCenter.attemptSendOnChannel` (center.go 255-274); as for
the aircraft, `busyAtCheck` is the separately-locked `IsBusy()` read. -/
def gccAttemptSendOnChannel (g : GccState) (msg : Msg) (busyAtCheck : Bool)
    (ch : ChannelState) (now : Int) : ℚ × GccState × ChannelState :=
  let g := { g with totalRqTunnel := g.totalRqTunnel + 1 }
  if busyAtCheck then
    (-1, { g with totalFailRqTunnel := g.totalFailRqTunnel + 1 }, ch)
  else
    let g := { g with totalTxAttempts := g.totalTxAttempts + 1 }
    let r := Channel.AttemptTransmit ch msg now
    if r.1 then
      (5, { g with
        outboundQueue := removeMessageFromQueue g.outboundQueue
          msg.base.messageID,
        successfulTx := g.successfulTx + 1 }, r.2)
    else
      (-10, { g with totalCollisions := g.totalCollisions + 1 }, r.2)

/-- The `AcknowledgementData` type assertion in the `ActionWait` branch of
`GroundControlCenter.Step` (center.go 229-234): the ACK's origin priority
when the payload parses, else the message's own priority. -/
def gccWaitPriorityValue (m : Msg) : Int :=
  match m.data with
  | MsgData.ackRaw d => priorityValue d.originMessagePriority
  | _ => priorityValue m.priority

/-- `GroundControlCenter.Step` (center.go 170-252). -/
def gccStep (g : GccState) (action : AgentAction) (primary : ChannelState)
    (backup : Option ChannelState) (now : Int) :
    ℚ × GccState × ChannelState × Option ChannelState :=
  let reward : ℚ := 0
  let sw := gccSweepLoop now g.outboundQueue 0 reward
  let g := { g with outboundQueue := sw.1 }
  let reward := sw.2
  let reward := reward - 1 / 10
  match g.outboundQueue.head? with
  | none =>
    if action = AgentAction.sendPrimary ∨ action = AgentAction.sendBackup then
      (reward - 10, g, primary, backup)
    else (reward + 1, g, primary, backup)
  | some msgToSend =>
    match action with
    | AgentAction.wait =>
      let queueLen := g.outboundQueue.length
      let penalty : ℚ := 1 + (queueLen : ℚ) * (1 / 2) +
        ((gccWaitPriorityValue msgToSend : ℚ)) * (1 / 5)
      (reward - penalty, g, primary, backup)
    | AgentAction.sendPrimary =>
      let r := gccAttemptSendOnChannel g msgToSend (Channel.IsBusy primary)
        primary now
      (reward + r.1, r.2.1, r.2.2, backup)
    | AgentAction.sendBackup =>
      match backup with
      | some b =>
        let r := gccAttemptSendOnChannel g msgToSend (Channel.IsBusy b) b now
        (reward + r.1, r.2.1, primary, some r.2.2)
      | none => (reward - 10, g, primary, backup)

end AirSim

namespace AirSim

/-! ## Sample data used by concrete witnesses -/

/-- A sample message with the given id and priority. -/
def sampleMsg (id : String) (p : Priority) : Msg :=
  { base := { aircraftICAOAddress := "A77001", flightID := "CES-1001",
              messageID := id, timestamp := 0, type := "POSITION_REPORT" },
    priority := p, data := MsgData.notRaw }

/-- An idle channel with zeroed statistics. -/
def idleChannel : ChannelState :=
  { isBusy := false, lastBusyTimestamp := 0, inTransit := none,
    totalMessagesTransmitted := 0, totalBusyTime := 0 }

/-! ## C1 -/

/-- C1: `AttemptTransmit` on a busy channel returns false leaving the busy
flag and the statistics unchanged; on an idle channel it sets busy, records
the commit timestamp and returns true; and in any serialization of calls on
one initially idle channel (no transmission ending in between) exactly one
call — the first — returns true, all later calls returning false. -/
theorem attemptTransmit_mutual_exclusion (c : ChannelState) (m : Msg)
    (t : Int) (calls : List (Msg × Int)) (hidle : c.isBusy = false)
    (hne : calls ≠ []) :
    (∀ c' : ChannelState, c'.isBusy = true →
      Channel.AttemptTransmit c' m t = (false, c')) ∧
    Channel.AttemptTransmit c m t =
      (true, { c with isBusy := true, lastBusyTimestamp := t,
                      inTransit := some m }) ∧
    (attemptAll c calls).1.count true = 1 ∧
    (attemptAll c calls).1.head? = some true := by
  refine ⟨fun c' h => attemptTransmit_busy c' m t h,
    attemptTransmit_idle c m t hidle, ?_, ?_⟩
  · obtain ⟨⟨m0, t0⟩, rest, rfl⟩ := List.exists_cons_of_ne_nil hne
    simp only [attemptAll, attemptTransmit_idle c m0 t0 hidle]
    have hb := attemptAll_busy
      { c with isBusy := true, lastBusyTimestamp := t0, inTransit := some m0 }
      rfl rest
    simp [List.count_cons, hb.1]
  · obtain ⟨⟨m0, t0⟩, rest, rfl⟩ := List.exists_cons_of_ne_nil hne
    simp [attemptAll, attemptTransmit_idle c m0 t0 hidle]

/-- C1 witness: two back-to-back calls on a concrete idle channel — the
first wins, the second observes busy. -/
theorem attemptTransmit_mutual_exclusion_witness :
    idleChannel.isBusy = false ∧
    ([(sampleMsg "M-A" CriticalPriority, 10),
      (sampleMsg "M-B" HighPriority, 11)] ≠
        ([] : List (Msg × Int))) ∧
    ((∀ c' : ChannelState, c'.isBusy = true →
        Channel.AttemptTransmit c' (sampleMsg "M-A" CriticalPriority) 10 =
          (false, c')) ∧
      Channel.AttemptTransmit idleChannel (sampleMsg "M-A" CriticalPriority)
          10 =
        (true, { idleChannel with isBusy := true, lastBusyTimestamp := 10,
                                  inTransit :=
                                    some (sampleMsg "M-A" CriticalPriority) }) ∧
      (attemptAll idleChannel
        [(sampleMsg "M-A" CriticalPriority, 10),
         (sampleMsg "M-B" HighPriority, 11)]).1.count true = 1 ∧
      (attemptAll idleChannel
        [(sampleMsg "M-A" CriticalPriority, 10),
         (sampleMsg "M-B" HighPriority, 11)]).1.head? = some true) :=
  ⟨rfl, by decide,
    attemptTransmit_mutual_exclusion idleChannel
      (sampleMsg "M-A" CriticalPriority) 10
      [(sampleMsg "M-A" CriticalPriority, 10),
       (sampleMsg "M-B" HighPriority, 11)] rfl (by decide)⟩

/-! ## C4 -/

/-- C4: with a backup channel present and the primary busy, a switchover
probability of 1 routes the message to the backup channel for every draw in
`[0,1)`; a switchover probability of 0 (including the missing-entry default)
routes it to the primary for every nonnegative draw, regardless of the busy
state or the presence of a backup. -/
theorem selectChannel_switchover_determinism
    (hasBackup primaryBusy : Bool) (probs : List (Priority × ℚ)) (msg : Msg)
    (r : ℚ) (hr0 : 0 ≤ r) :
    (lookupProb probs msg.priority = 1 → hasBackup = true →
      primaryBusy = true → r < 1 →
      SelectChannelForMessage hasBackup primaryBusy probs msg r =
        ChannelChoice.backup) ∧
    (lookupProb probs msg.priority = 0 →
      SelectChannelForMessage hasBackup primaryBusy probs msg r =
        ChannelChoice.primary) := by
  constructor
  · intro hp hb hpb hr1
    subst hb; subst hpb
    simp [SelectChannelForMessage, hp, hr1]
  · intro hp
    unfold SelectChannelForMessage
    split
    · rfl
    · simp only [hp]
      rw [if_neg (by linarith)]

/-- C4 witness: a Critical-priority message with switchover probability 1
against a busy primary goes to the backup; a Low-priority message with no
configured entry stays on the primary. -/
theorem selectChannel_switchover_determinism_witness :
    (0 : ℚ) ≤ 1 / 2 ∧
    lookupProb [(CriticalPriority, 1)]
      (sampleMsg "M-C" CriticalPriority).priority = 1 ∧
    (1 : ℚ) / 2 < 1 ∧
    SelectChannelForMessage true true [(CriticalPriority, 1)]
      (sampleMsg "M-C" CriticalPriority) (1 / 2) = ChannelChoice.backup ∧
    lookupProb [(CriticalPriority, 1)]
      (sampleMsg "M-L" LowPriority).priority = 0 ∧
    SelectChannelForMessage true true [(CriticalPriority, 1)]
      (sampleMsg "M-L" LowPriority) (1 / 2) = ChannelChoice.primary := by
  refine ⟨by norm_num, by decide, by norm_num, ?_, by decide, ?_⟩
  · exact (selectChannel_switchover_determinism true true
      [(CriticalPriority, 1)] (sampleMsg "M-C" CriticalPriority) (1 / 2)
      (by norm_num)).1 (by decide) rfl rfl (by norm_num)
  · exact (selectChannel_switchover_determinism true true
      [(CriticalPriority, 1)] (sampleMsg "M-L" LowPriority) (1 / 2)
      (by norm_num)).2 (by decide)

/-! ## C8 -/

/-- C8: when no backup channel exists, or the primary channel is idle,
`SelectChannelForMessage` returns the primary channel regardless of the
priority and the random draw; in particular with no backup it always
returns the primary. -/
theorem selectChannel_primary_when_no_backup_or_idle
    (hasBackup primaryBusy : Bool) (probs : List (Priority × ℚ)) (msg : Msg)
    (r : ℚ) (h : hasBackup = false ∨ primaryBusy = false) :
    SelectChannelForMessage hasBackup primaryBusy probs msg r =
      ChannelChoice.primary := by
  unfold SelectChannelForMessage
  rcases h with h | h <;> subst h <;> simp

/-- C8 witness: no backup, primary busy, switchover probability 1 for the
message priority — the primary is still returned. -/
theorem selectChannel_primary_when_no_backup_or_idle_witness :
    ((false = false ∨ true = false) ∧
      SelectChannelForMessage false true [(CriticalPriority, 1)]
        (sampleMsg "M-C" CriticalPriority) 0 = ChannelChoice.primary) :=
  ⟨Or.inl rfl,
    selectChannel_primary_when_no_backup_or_idle false true
      [(CriticalPriority, 1)] (sampleMsg "M-C" CriticalPriority) 0
      (Or.inl rfl)⟩

end AirSim

namespace AirSim

/-! ## C3 / C5: the autonomous send loop -/

lemma csmaPhase_commits (o : Nat → PollEvent) :
    ∀ (fuel round : Nat) (s : TxStats),
      (∃ k, k < fuel ∧ o (round + k) = PollEvent.idleCommit) →
      ∃ s', csmaPhase o fuel round s = some s' ∧
        s'.successfulTx = s.successfulTx ∧
        s'.totalRetries = s.totalRetries := by
  intro fuel
  induction fuel with
  | zero =>
    rintro round s ⟨k, hk, -⟩
    omega
  | succ n ih =>
    rintro round s ⟨k, hk, hke⟩
    by_cases he : o round = PollEvent.idleCommit
    · refine ⟨{ s with totalRqTunnel := s.totalRqTunnel + 1,
                       totalTxAttempts := s.totalTxAttempts + 1 },
        ?_, rfl, rfl⟩
      simp [csmaPhase, he]
    · have hk0 : k ≠ 0 := by
        rintro rfl
        rw [Nat.add_zero] at hke
        exact he hke
      have hex : ∃ k', k' < n ∧ o (round + 1 + k') = PollEvent.idleCommit :=
        ⟨k - 1, by omega, by
          rw [show round + 1 + (k - 1) = round + k by omega]
          exact hke⟩
      cases hev : o round with
      | busy =>
        obtain ⟨s', h1, h2, h3⟩ := ih (round + 1)
          { s with totalRqTunnel := s.totalRqTunnel + 1,
                   totalFailRqTunnel := s.totalFailRqTunnel + 1 } hex
        refine ⟨s', ?_, by simpa using h2, by simpa using h3⟩
        simpa [csmaPhase, hev] using h1
      | idleDefer =>
        obtain ⟨s', h1, h2, h3⟩ := ih (round + 1)
          { s with totalRqTunnel := s.totalRqTunnel + 1 } hex
        refine ⟨s', ?_, by simpa using h2, by simpa using h3⟩
        simpa [csmaPhase, hev] using h1
      | idleCollide =>
        obtain ⟨s', h1, h2, h3⟩ := ih (round + 1)
          { s with totalRqTunnel := s.totalRqTunnel + 1,
                   totalTxAttempts := s.totalTxAttempts + 1,
                   totalCollisions := s.totalCollisions + 1 } hex
        refine ⟨s', ?_, by simpa using h2, by simpa using h3⟩
        simpa [csmaPhase, hev] using h1
      | idleCommit => exact absurd hev he

lemma csmaPhase_allBusy :
    ∀ (fuel round : Nat) (s : TxStats),
      csmaPhase (fun _ => PollEvent.busy) fuel round s = none := by
  intro fuel
  induction fuel with
  | zero => intro round s; rfl
  | succ n ih => intro round s; simp [csmaPhase, ih]

lemma sendMessageAux_noAck (csma : Nat → Nat → PollEvent) (fuel : Nat)
    (hcommit : ∀ c, ∃ k, k < fuel ∧ csma c k = PollEvent.idleCommit) :
    ∀ (remaining retries : Nat) (s : TxStats), 1 ≤ retries →
      ∃ s', sendMessageAux csma (fun _ => false) fuel remaining retries s =
          some (SendOutcome.exhausted, s') ∧
        s'.totalRetries = s.totalRetries + remaining ∧
        s'.successfulTx = s.successfulTx := by
  intro remaining
  induction remaining with
  | zero =>
    intro retries s _
    exact ⟨s, rfl, by omega, rfl⟩
  | succ n ih =>
    intro retries s hr
    obtain ⟨k, hk, hke⟩ := hcommit retries
    obtain ⟨s2, h1, h2, h3⟩ := csmaPhase_commits (csma retries) fuel 0
      { s with totalRetries := s.totalRetries + 1 }
      ⟨k, hk, by simpa using hke⟩
    obtain ⟨s3, g1, g2, g3⟩ := ih (retries + 1) s2 (by omega)
    refine ⟨s3, ?_, ?_, ?_⟩
    · simp only [sendMessageAux, if_pos (by omega : retries > 0), h1]
      simpa using g1
    · rw [g2, h3]
      simp only [TxStats.mk.injEq] at *
      omega
    · rw [g3, h2]

lemma sendMessageAux_terminates (csma : Nat → Nat → PollEvent)
    (ack : Nat → Bool) (fuel : Nat)
    (hcommit : ∀ c, ∃ k, k < fuel ∧ csma c k = PollEvent.idleCommit) :
    ∀ (remaining retries : Nat) (s : TxStats),
      ∃ r, sendMessageAux csma ack fuel remaining retries s = some r := by
  intro remaining
  induction remaining with
  | zero => intro retries s; exact ⟨(SendOutcome.exhausted, s), rfl⟩
  | succ n ih =>
    intro retries s
    obtain ⟨k, hk, hke⟩ := hcommit retries
    obtain ⟨s2, h1, -, -⟩ := csmaPhase_commits (csma retries) fuel 0
      (if retries > 0 then { s with totalRetries := s.totalRetries + 1 }
        else s) ⟨k, hk, by simpa using hke⟩
    by_cases ha : ack retries
    · refine ⟨(SendOutcome.acknowledged,
        { s2 with successfulTx := s2.successfulTx + 1 }), ?_⟩
      simp only [sendMessageAux, h1, ha, if_true]
    · obtain ⟨r, hrec⟩ := ih (retries + 1) s2
      refine ⟨r, ?_⟩
      simp only [sendMessageAux, h1, ha, if_false]
      exact hrec

lemma sendMessage_allBusy (fuel maxRetries : Nat) (h : 1 ≤ maxRetries) :
    SendMessage (fun _ _ => PollEvent.busy) (fun _ => false) fuel
      maxRetries = none := by
  obtain ⟨m, rfl⟩ : ∃ m, maxRetries = m + 1 := ⟨maxRetries - 1, by omega⟩
  unfold SendMessage
  simp [sendMessageAux, csmaPhase_allBusy]

/-- C3 counterexample: with `MaxRetries = 16`, the CSMA phase committing
instantly every cycle, and no acknowledgment ever arriving, `SendMessage`
ends with the message Exhausted but the `totalRetries` counter equals 15
(the first of the 16 transmission cycles is not counted as a retry), not
16. -/
theorem sendMessage_noAck_retryCounter_fifteen :
    SendMessage (fun _ _ => PollEvent.idleCommit) (fun _ => false) 1
        MaxRetries =
      some (SendOutcome.exhausted,
        { totalTxAttempts := 16, totalCollisions := 0, successfulTx := 0,
          totalRetries := 15, totalRqTunnel := 16,
          totalFailRqTunnel := 0 }) ∧
    (15 : Nat) ≠ 16 :=
  ⟨rfl, by decide⟩

/-- C3 (amended): in autonomous mode with `maxRetries ≥ 1`, if every CSMA
phase commits and no acknowledgment ever arrives, `SendMessage` terminates
with the message Exhausted, the `totalRetries` counter equal to
`maxRetries - 1` (the 16 transmission cycles comprise one initial attempt
and 15 counted retries when `maxRetries = 16`), and `successfulTx`
unchanged at 0. -/
theorem sendMessage_noAck_exhausts (csma : Nat → Nat → PollEvent)
    (fuel maxRetries : Nat) (hpos : 1 ≤ maxRetries)
    (hcommit : ∀ c, ∃ k, k < fuel ∧ csma c k = PollEvent.idleCommit) :
    ∃ s, SendMessage csma (fun _ => false) fuel maxRetries =
        some (SendOutcome.exhausted, s) ∧
      s.totalRetries = maxRetries - 1 ∧ s.successfulTx = 0 := by
  obtain ⟨m, rfl⟩ : ∃ m, maxRetries = m + 1 := ⟨maxRetries - 1, by omega⟩
  obtain ⟨k, hk, hke⟩ := hcommit 0
  obtain ⟨s2, h1, h2, h3⟩ := csmaPhase_commits (csma 0) fuel 0 {}
    ⟨k, hk, by simpa using hke⟩
  obtain ⟨s3, g1, g2, g3⟩ := sendMessageAux_noAck csma fuel hcommit m 1 s2
    (le_refl 1)
  refine ⟨s3, ?_, ?_, ?_⟩
  · unfold SendMessage
    simp only [sendMessageAux, if_neg (by omega : ¬ (0 : Nat) > 0), h1]
    simpa using g1
  · rw [g2, h3]
    simp
  · rw [g3, h2]

/-- C3 witness: the amended theorem applied at the concrete no-ack scenario
with `maxRetries = 16` and an always-committing CSMA oracle. -/
theorem sendMessage_noAck_exhausts_witness :
    ∃ s, SendMessage (fun _ _ => PollEvent.idleCommit) (fun _ => false) 1
        16 = some (SendOutcome.exhausted, s) ∧
      s.totalRetries = 16 - 1 ∧ s.successfulTx = 0 :=
  sendMessage_noAck_exhausts (fun _ _ => PollEvent.idleCommit) 1 16
    (by omega) (fun c => ⟨0, by omega, rfl⟩)

/-- C5 counterexample: against a persistently busy channel, the CSMA
polling phase never completes — no number of polling rounds suffices — and
consequently `SendMessage` (with `MaxRetries = 16`) never terminates either:
termination is not guaranteed within any bounded horizon. -/
theorem csma_polling_rounds_unbounded :
    (¬ ∃ fuel : Nat,
      (csmaPhase (fun _ => PollEvent.busy) fuel 0 {}).isSome = true) ∧
    (¬ ∃ fuel : Nat,
      (SendMessage (fun _ _ => PollEvent.busy) (fun _ => false) fuel
        MaxRetries).isSome = true) := by
  constructor
  · rintro ⟨fuel, h⟩
    rw [csmaPhase_allBusy] at h
    cases h
  · rintro ⟨fuel, h⟩
    rw [sendMessage_allBusy fuel MaxRetries (by decide)] at h
    cases h

/-- C5 (amended): provided every cycle's channel-access phase commits
within some finite number of polling rounds, every message reaches exactly
one of the two terminal states (Acknowledged or Exhausted) for any
`maxRetries ≥ 0`; the bounded-horizon guarantee holds only under that
proviso, the polling loop itself being unbounded. -/
theorem sendMessage_terminates_given_csma_commits
    (csma : Nat → Nat → PollEvent) (ack : Nat → Bool)
    (fuel maxRetries : Nat)
    (hcommit : ∀ c, ∃ k, k < fuel ∧ csma c k = PollEvent.idleCommit) :
    ∃ r, SendMessage csma ack fuel maxRetries = some r ∧
      ((r.1 = SendOutcome.acknowledged ∧ r.1 ≠ SendOutcome.exhausted) ∨
        (r.1 = SendOutcome.exhausted ∧ r.1 ≠ SendOutcome.acknowledged)) := by
  obtain ⟨r, hr⟩ := sendMessageAux_terminates csma ack fuel hcommit
    maxRetries 0 {}
  refine ⟨r, hr, ?_⟩
  cases h : r.1 <;> simp [h]

/-- C5 witness: the amended theorem applied at a concrete scenario where the
ACK arrives in the third cycle. -/
theorem sendMessage_terminates_given_csma_commits_witness :
    ∃ r, SendMessage (fun _ _ => PollEvent.idleCommit) (fun c => c == 2) 1
        16 = some r ∧
      ((r.1 = SendOutcome.acknowledged ∧ r.1 ≠ SendOutcome.exhausted) ∨
        (r.1 = SendOutcome.exhausted ∧
          r.1 ≠ SendOutcome.acknowledged)) :=
  sendMessage_terminates_given_csma_commits
    (fun _ _ => PollEvent.idleCommit) (fun c => c == 2) 1 16
    (fun c => ⟨0, by omega, rfl⟩)

end AirSim

namespace AirSim

/-! ## C2: the outbound queue ordering -/

/-- Messages of the C2 enqueue run: ids `M0`..`M14`, all Critical priority
except `M13`, which is High. -/
def c2msg (i : Nat) : Msg :=
  sampleMsg ("M" ++ toString i)
    (if i = 13 then HighPriority else CriticalPriority)

/-- The C2 enqueue sequence: thirteen Critical messages, one High message,
one more Critical message. -/
def c2sequence : List Msg := (List.range 15).map c2msg

/-- A sequence of `EnqueueMessage` calls on one aircraft. -/
def enqueueAll (a : AircraftState) (msgs : List Msg) : AircraftState :=
  msgs.foldl enqueueMessage a

set_option maxRecDepth 100000 in
set_option maxHeartbeats 1000000 in
/-- C2: `EnqueueMessage` sorts with Go's unstable `sort.Slice` (pdqsort), so
FIFO order within equal priority is not preserved: after enqueueing
`M0..M12` (Critical), `M13` (High), `M14` (Critical) into a fresh queue,
`peekHighestPriorityMessage` returns `M6` — a message of maximal priority
weight, but the seventh-enqueued Critical message, not the earliest-enqueued
one (`M0`, which is still queued at position 8). -/
theorem enqueue_peek_not_fifo_within_priority :
    (enqueueAll initialAircraftState c2sequence).outboundQueue =
      [c2msg 6, c2msg 10, c2msg 2, c2msg 3, c2msg 4, c2msg 5, c2msg 1,
       c2msg 8, c2msg 0, c2msg 9, c2msg 7, c2msg 11, c2msg 12, c2msg 14,
       c2msg 13] ∧
    peekHighestPriorityMessage (enqueueAll initialAircraftState c2sequence) =
      some (c2msg 6) ∧
    (c2msg 0).priority = (c2msg 6).priority ∧
    c2msg 0 ≠ c2msg 6 :=
  ⟨rfl, rfl, rfl, by decide⟩

end AirSim

namespace AirSim

/-! ## C6 / C7: discrete-mode queue and pending-ack handling -/

lemma removeMessage_of_countP_one :
    ∀ q : List Msg, ∀ id : String,
      q.countP (fun m => m.base.messageID = id) = 1 →
      (removeMessageFromQueue q id).countP
          (fun m => m.base.messageID = id) = 0 ∧
      (removeMessageFromQueue q id).length + 1 = q.length := by
  intro q
  induction q with
  | nil => intro id h; simp [List.countP_nil] at h
  | cons m rest ih =>
    intro id h
    by_cases hm : m.base.messageID = id
    · rw [List.countP_cons_of_pos _ _ (by simpa using hm)] at h
      have h0 : rest.countP (fun m => m.base.messageID = id) = 0 := by omega
      refine ⟨?_, ?_⟩
      · simpa [removeMessageFromQueue, hm] using h0
      · simp [removeMessageFromQueue, hm]
    · rw [List.countP_cons_of_neg _ _ (by simpa using hm)] at h
      obtain ⟨h1, h2⟩ := ih id h
      refine ⟨?_, ?_⟩
      · rw [show removeMessageFromQueue (m :: rest) id =
            m :: removeMessageFromQueue rest id by
          simp [removeMessageFromQueue, hm]]
        rw [List.countP_cons_of_neg _ _ (by simpa using hm)]
        exact h1
      · simp only [removeMessageFromQueue, if_neg hm, List.length_cons]
        omega

lemma removeMessage_sublist (id : String) :
    ∀ q : List Msg, (removeMessageFromQueue q id).Sublist q := by
  intro q
  induction q with
  | nil => simp [removeMessageFromQueue]
  | cons m rest ih =>
    by_cases hm : m.base.messageID = id
    · simp only [removeMessageFromQueue, if_pos hm]
      exact List.sublist_cons_self m rest
    · simp only [removeMessageFromQueue, if_neg hm]
      exact List.Sublist.cons₂ m ih

lemma loadWaiter_mapStore (k : String) (v : AckWaiter) :
    ∀ m : List (String × AckWaiter),
      m.any (fun kv => kv.1 = k) = true →
      loadWaiter (m.map (fun kv => if kv.1 = k then (k, v) else kv)) k =
        some v := by
  intro m
  induction m with
  | nil => intro h; simp at h
  | cons kv rest ih =>
    intro h
    by_cases hk : kv.1 = k
    · simp [loadWaiter, hk]
    · have hr : rest.any (fun kv => kv.1 = k) = true := by
        simpa [List.any_cons, hk] using h
      simp only [List.map_cons, if_neg hk]
      rw [show loadWaiter
          (kv :: rest.map (fun kv => if kv.1 = k then (k, v) else kv)) k =
          loadWaiter (rest.map (fun kv => if kv.1 = k then (k, v) else kv))
            k by simp [loadWaiter, List.find?_cons, hk]]
      exact ih hr

lemma loadWaiter_append_single (k : String) (v : AckWaiter) :
    ∀ m : List (String × AckWaiter),
      m.any (fun kv => kv.1 = k) = false →
      loadWaiter (m ++ [(k, v)]) k = some v := by
  intro m
  induction m with
  | nil => intro _; simp [loadWaiter]
  | cons kv rest ih =>
    intro h
    simp only [List.any_cons, Bool.or_eq_false_iff] at h
    have hk' : ¬ kv.1 = k := by simpa using h.1
    have hr : rest.any (fun kv => kv.1 = k) = false := h.2
    rw [List.cons_append,
      show loadWaiter (kv :: (rest ++ [(k, v)])) k =
        loadWaiter (rest ++ [(k, v)]) k by
      simp [loadWaiter, List.find?_cons, hk']]
    exact ih hr

lemma loadWaiter_store (m : List (String × AckWaiter)) (k : String)
    (v : AckWaiter) : loadWaiter (storeWaiter m k v) k = some v := by
  unfold storeWaiter
  by_cases hany : m.any (fun kv => kv.1 = k) = true
  · rw [if_pos hany]
    exact loadWaiter_mapStore k v m hany
  · rw [if_neg hany]
    exact loadWaiter_append_single k v m (Bool.eq_false_iff.mpr hany)

lemma loadWaiter_delete (k : String) :
    ∀ m : List (String × AckWaiter),
      loadWaiter (deleteWaiter m k) k = none := by
  intro m
  induction m with
  | nil => simp [deleteWaiter, loadWaiter]
  | cons kv rest ih =>
    by_cases hk : kv.1 = k
    · simpa [deleteWaiter, List.filter_cons, hk] using ih
    · simp only [deleteWaiter, List.filter_cons] at ih ⊢
      rw [if_pos (by simpa using hk)]
      simpa [loadWaiter, List.find?_cons, hk] using ih

lemma length_deleteWaiter (k : String) :
    ∀ m : List (String × AckWaiter),
      (deleteWaiter m k).length + m.countP (fun kv => kv.1 = k) =
        m.length := by
  intro m
  induction m with
  | nil => simp [deleteWaiter]
  | cons kv rest ih =>
    unfold deleteWaiter at ih ⊢
    by_cases hk : kv.1 = k
    · rw [List.filter_cons_of_neg (by simpa using hk),
        List.countP_cons_of_pos _ _ (by simpa using hk), List.length_cons]
      omega
    · rw [List.filter_cons_of_pos (by simpa using hk),
        List.countP_cons_of_neg _ _ (by simpa using hk), List.length_cons,
        List.length_cons]
      omega

end AirSim

namespace AirSim

/-- A state holding a single queued message (C6 witness). -/
def oneQueuedState : AircraftState :=
  { initialAircraftState with
    outboundQueue := [sampleMsg "M-X" HighPriority] }

/-- A state with a single pending acknowledgment entry (C7 witness). -/
def onePendingState : AircraftState :=
  { initialAircraftState with
    ackWaiters := [("M-X", AckWaiter.mk (sampleMsg "M-X" HighPriority) 0)] }

/-- A concrete acknowledgment message referencing `M-X` (C7 witness). -/
def sampleAckMsg : Msg :=
  { base := { aircraftICAOAddress := "GND", flightID := "GND_CTL",
              messageID := "ACK-M-X", timestamp := 5, type := MsgTypeAck },
    priority := CriticalPriority,
    data := MsgData.ackRaw (AcknowledgementData.mk HighPriority "M-X" "RECEIVED") }

/-- C6: in discrete-stepped mode, when `attemptSendOnChannel` reaches idle
`AttemptTransmit` (commit), the message is removed from the outbound queue
exactly once (its single occurrence disappears, the length drops by one) and
an entry keyed by its messageId holding the original message and the commit
timestamp is inserted into the pending-ack table; when `AttemptTransmit`
returns false (collision), the outbound queue and pending-ack table are
unchanged. -/
theorem attemptSend_commit_collision (a : AircraftState) (msg : Msg)
    (ch : ChannelState) (now : Int)
    (huniq : a.outboundQueue.countP
      (fun m => m.base.messageID = msg.base.messageID) = 1) :
    (ch.isBusy = false →
      ((attemptSendOnChannel a msg false ch now).2.1.outboundQueue =
          removeMessageFromQueue a.outboundQueue msg.base.messageID ∧
        (attemptSendOnChannel a msg false ch now).2.1.outboundQueue.countP
          (fun m => m.base.messageID = msg.base.messageID) = 0 ∧
        (attemptSendOnChannel a msg false ch now).2.1.outboundQueue.length +
            1 = a.outboundQueue.length ∧
        loadWaiter (attemptSendOnChannel a msg false ch now).2.1.ackWaiters
          msg.base.messageID = some ⟨msg, now⟩ ∧
        (attemptSendOnChannel a msg false ch now).2.2 =
          { ch with isBusy := true, lastBusyTimestamp := now,
                    inTransit := some msg })) ∧
    (ch.isBusy = true →
      ((attemptSendOnChannel a msg false ch now).2.1.outboundQueue =
          a.outboundQueue ∧
        (attemptSendOnChannel a msg false ch now).2.1.ackWaiters =
          a.ackWaiters ∧
        (attemptSendOnChannel a msg false ch now).2.2 = ch)) := by
  constructor
  · intro hidle
    obtain ⟨hc0, hlen⟩ := removeMessage_of_countP_one a.outboundQueue
      msg.base.messageID huniq
    refine ⟨?_, ?_, ?_, ?_, ?_⟩ <;>
      simp [attemptSendOnChannel, Channel.AttemptTransmit, hidle, hc0, hlen,
        loadWaiter_store]
  · intro hbusy
    refine ⟨?_, ?_, ?_⟩ <;>
      simp [attemptSendOnChannel, Channel.AttemptTransmit, hbusy]

/-- C6 witness: a one-message queue committing on a concrete idle channel.
-/
theorem attemptSend_commit_collision_witness :
    oneQueuedState.outboundQueue.countP
      (fun m =>
        m.base.messageID = (sampleMsg "M-X" HighPriority).base.messageID) =
      1 ∧
    idleChannel.isBusy = false ∧
    (attemptSendOnChannel oneQueuedState (sampleMsg "M-X" HighPriority)
        false idleChannel 7).2.1.outboundQueue =
      removeMessageFromQueue oneQueuedState.outboundQueue
        (sampleMsg "M-X" HighPriority).base.messageID ∧
    loadWaiter (attemptSendOnChannel oneQueuedState
        (sampleMsg "M-X" HighPriority) false idleChannel 7).2.1.ackWaiters
        (sampleMsg "M-X" HighPriority).base.messageID =
      some (AckWaiter.mk (sampleMsg "M-X" HighPriority) 7) := by
  refine ⟨by decide, rfl, ?_, ?_⟩
  · exact (((attemptSend_commit_collision oneQueuedState
      (sampleMsg "M-X" HighPriority) idleChannel 7 (by decide)).1) rfl).1
  · exact (((attemptSend_commit_collision oneQueuedState
      (sampleMsg "M-X" HighPriority) idleChannel 7 (by decide)).1)
      rfl).2.2.2.1

/-- C7: one iteration of the listening loop; an acknowledgment whose
referenced original messageId matches a pending entry removes that entry
(the key no longer resolves; with the key pending exactly once the table
shrinks by exactly one) and increments the success counter; a non-ACK
message, an unparsable acknowledgment payload, a payload that is not a raw
JSON value, or an acknowledgment referencing no pending entry leaves the
whole agent state — pending-ack table, outbound queue and all counters —
unchanged. -/
theorem processInbound_ack_take_and_ignore (a : AircraftState) (msg : Msg)
    (d : AcknowledgementData) :
    (msg.base.type = MsgTypeAck → msg.data = MsgData.ackRaw d →
      loadWaiter a.ackWaiters d.originalMessageID ≠ none →
      (processInboundMessage a msg =
        { a with
          ackWaiters := deleteWaiter a.ackWaiters d.originalMessageID,
          pendingReward := a.pendingReward + 20,
          successfulTx := a.successfulTx + 1 } ∧
      loadWaiter (deleteWaiter a.ackWaiters d.originalMessageID)
        d.originalMessageID = none ∧
      (a.ackWaiters.countP (fun kv => kv.1 = d.originalMessageID) = 1 →
        (deleteWaiter a.ackWaiters d.originalMessageID).length + 1 =
          a.ackWaiters.length))) ∧
    (msg.base.type ≠ MsgTypeAck → processInboundMessage a msg = a) ∧
    (msg.data = MsgData.rawUnparsable → processInboundMessage a msg = a) ∧
    (msg.data = MsgData.notRaw → processInboundMessage a msg = a) ∧
    (msg.data = MsgData.ackRaw d →
      loadWaiter a.ackWaiters d.originalMessageID = none →
      processInboundMessage a msg = a) := by
  refine ⟨?_, ?_, ?_, ?_, ?_⟩
  · intro hty hdata hpend
    obtain ⟨w, hw⟩ : ∃ w, loadWaiter a.ackWaiters d.originalMessageID =
        some w := by
      cases hl : loadWaiter a.ackWaiters d.originalMessageID with
      | none => exact absurd hl hpend
      | some w => exact ⟨w, rfl⟩
    refine ⟨?_, loadWaiter_delete d.originalMessageID a.ackWaiters, ?_⟩
    · simp [processInboundMessage, hty, hdata, loadAndDeleteWaiter, hw]
    · intro hcount
      have := length_deleteWaiter d.originalMessageID a.ackWaiters
      omega
  · intro hty
    simp [processInboundMessage, hty]
  · intro hdata
    by_cases hty : msg.base.type = MsgTypeAck <;>
      simp [processInboundMessage, hty, hdata]
  · intro hdata
    by_cases hty : msg.base.type = MsgTypeAck <;>
      simp [processInboundMessage, hty, hdata]
  · intro hdata hnone
    by_cases hty : msg.base.type = MsgTypeAck <;>
      simp [processInboundMessage, hty, hdata, loadAndDeleteWaiter, hnone]

/-- C7 witness: a matching acknowledgment retires the single pending entry
of a concrete state, and a non-ACK message leaves the same state
untouched. -/
theorem processInbound_ack_take_and_ignore_witness :
    processInboundMessage onePendingState sampleAckMsg =
      { onePendingState with ackWaiters := [], pendingReward := 20,
                             successfulTx := 1 } ∧
    processInboundMessage onePendingState (sampleMsg "M-Y" LowPriority) =
      onePendingState := by
  refine ⟨?_, ?_⟩
  · have h := ((processInbound_ack_take_and_ignore onePendingState
      sampleAckMsg (AcknowledgementData.mk HighPriority "M-X" "RECEIVED")).1
      rfl rfl (by decide)).1
    rw [h]
    decide
  · exact (processInbound_ack_take_and_ignore onePendingState
      (sampleMsg "M-Y" LowPriority)
      (AcknowledgementData.mk HighPriority "M-X" "RECEIVED")).2.1
      (by decide)

end AirSim

namespace AirSim

/-! ## C9: the MAX_PENDING_ACKS window in discrete-stepped mode -/

lemma sweepStep_ackWaiters (st : AircraftState) (kv : String × AckWaiter) :
    (sweepStep st kv).ackWaiters = deleteWaiter st.ackWaiters kv.1 := rfl

lemma foldl_sweepStep_waiters_le :
    ∀ (lst : List (String × AckWaiter)) (st : AircraftState),
      (lst.foldl sweepStep st).ackWaiters.length ≤
        st.ackWaiters.length := by
  intro lst
  induction lst with
  | nil => intro st; simp
  | cons kv rest ih =>
    intro st
    calc ((kv :: rest).foldl sweepStep st).ackWaiters.length
        = (rest.foldl sweepStep (sweepStep st kv)).ackWaiters.length := by
          rw [List.foldl_cons]
      _ ≤ (sweepStep st kv).ackWaiters.length := ih (sweepStep st kv)
      _ ≤ st.ackWaiters.length := by
          rw [sweepStep_ackWaiters]
          exact List.length_filter_le _ _

lemma sweepTimeouts_waiters_le (a : AircraftState) (now : Int) :
    (sweepTimeouts a now).ackWaiters.length ≤ a.ackWaiters.length := by
  unfold sweepTimeouts
  exact foldl_sweepStep_waiters_le _ a

lemma storeWaiter_length_le (m : List (String × AckWaiter)) (k : String)
    (v : AckWaiter) : (storeWaiter m k v).length ≤ m.length + 1 := by
  unfold storeWaiter
  split
  · simp
  · simp

lemma attemptSend_waiters_le (st : AircraftState) (m : Msg) (b : Bool)
    (ch : ChannelState) (now : Int) :
    (attemptSendOnChannel st m b ch now).2.1.ackWaiters.length ≤
      st.ackWaiters.length + 1 := by
  unfold attemptSendOnChannel
  split
  · simp
  · dsimp only
    split
    · dsimp only
      exact storeWaiter_length_le _ _ _
    · simp

end AirSim

namespace AirSim

/-- C9 counterexample state: three pending acknowledgments of which the
first (`W1`, sent at time 0) has timed out by `now = 4000000000`, and one
queued message. -/
def c9state : AircraftState :=
  { initialAircraftState with
    outboundQueue := [sampleMsg "MQ" CriticalPriority],
    ackWaiters :=
      [("W1", AckWaiter.mk (sampleMsg "W1" HighPriority) 0),
       ("W2", AckWaiter.mk (sampleMsg "W2" HighPriority) 2000000000),
       ("W3", AckWaiter.mk (sampleMsg "W3" HighPriority) 2000000000)] }

/-- C9 counterexample: with three acknowledgments pending at the moment
`Step` is applied — one of them expired — a `SendPrimary` action is NOT
rejected: the per-step timeout sweep first shrinks the pending table below
`MAX_PENDING_ACKS`, after which `AttemptTransmit` runs on the idle primary
(the channel becomes busy carrying the queued message) and the outbound
queue changes. -/
theorem step_sends_despite_three_pending :
    c9state.ackWaiters.length = 3 ∧
    MAX_PENDING_ACKS = 3 ∧
    idleChannel.isBusy = false ∧
    (aircraftStep c9state AgentAction.sendPrimary idleChannel none
      4000000000).2.2.1.isBusy = true ∧
    (aircraftStep c9state AgentAction.sendPrimary idleChannel none
      4000000000).2.2.1.inTransit = some (sampleMsg "MQ" CriticalPriority) ∧
    (aircraftStep c9state AgentAction.sendPrimary idleChannel none
      4000000000).2.1.outboundQueue = [sampleMsg "W1" HighPriority] ∧
    (aircraftStep c9state AgentAction.sendPrimary idleChannel none
      4000000000).2.1.ackWaiters.length = 3 :=
  ⟨rfl, rfl, rfl, rfl, rfl, rfl, rfl⟩

/-- C9 (amended): in discrete-stepped mode the pending-ack table never
exceeds `MAX_PENDING_ACKS = 3` entries: whenever, after the per-step
timeout sweep, 3 or more acknowledgments remain pending and a message is
queued, `Step` on a `SendPrimary`/`SendBackup` action performs no channel
access — it returns the post-sweep state with both channels untouched and
only the reward reflecting the rejected action; each `Step` inserts at most
one new pending entry, the sweep never grows the table, and a table of at
most 3 entries stays at most 3. -/
theorem step_pending_window (a : AircraftState) (action : AgentAction)
    (primary : ChannelState) (backup : Option ChannelState) (now : Int) :
    ((action = AgentAction.sendPrimary ∨ action = AgentAction.sendBackup) →
      MAX_PENDING_ACKS ≤
        (sweepTimeouts { a with pendingReward := 0 } now).ackWaiters.length →
      (sweepTimeouts { a with pendingReward := 0 } now).outboundQueue ≠
        [] →
      aircraftStep a action primary backup now =
        ((a.pendingReward : ℚ) - 10,
          sweepTimeouts { a with pendingReward := 0 } now, primary,
          backup)) ∧
    ((aircraftStep a action primary backup now).2.1.ackWaiters.length ≤
      (sweepTimeouts { a with pendingReward := 0 } now).ackWaiters.length +
        1) ∧
    ((sweepTimeouts { a with pendingReward := 0 } now).ackWaiters.length ≤
      a.ackWaiters.length) ∧
    (a.ackWaiters.length ≤ MAX_PENDING_ACKS →
      (aircraftStep a action primary backup now).2.1.ackWaiters.length ≤
        MAX_PENDING_ACKS) := by
  have hsweep : (sweepTimeouts { a with pendingReward := 0 }
      now).ackWaiters.length ≤ a.ackWaiters.length := by
    simpa using sweepTimeouts_waiters_le { a with pendingReward := 0 } now
  refine ⟨?_, ?_, hsweep, ?_⟩
  · intro hact hfull hne
    unfold aircraftStep
    cases hpk : peekHighestPriorityMessage
        (sweepTimeouts { a with pendingReward := 0 } now) with
    | none =>
      exact absurd (by simpa [peekHighestPriorityMessage,
        List.head?_eq_none_iff] using hpk) hne
    | some msg =>
      simp only [hpk, if_pos hfull, if_pos hact]
  · unfold aircraftStep
    dsimp only
    repeat' split
    all_goals dsimp only
    all_goals try omega
    all_goals exact attemptSend_waiters_le _ _ _ _ _
  · intro hcap
    unfold aircraftStep
    dsimp only
    repeat' split
    all_goals dsimp only
    all_goals try omega
    all_goals refine le_trans (attemptSend_waiters_le _ _ _ _ _) (by omega)

/-- C9 witness: the amended theorem applied at a concrete state with three
unexpired pending acknowledgments and a queued message: `SendPrimary` is
rejected and the post-sweep state returned unchanged with the idle primary
untouched. -/
theorem step_pending_window_witness :
    aircraftStep
        { initialAircraftState with
          outboundQueue := [sampleMsg "MQ" CriticalPriority],
          ackWaiters :=
            [("W1", AckWaiter.mk (sampleMsg "W1" HighPriority) 500),
             ("W2", AckWaiter.mk (sampleMsg "W2" HighPriority) 600),
             ("W3", AckWaiter.mk (sampleMsg "W3" HighPriority) 700)] }
        AgentAction.sendPrimary idleChannel none 1000 =
      ((0 : ℚ) - 10,
        sweepTimeouts
          { initialAircraftState with
            outboundQueue := [sampleMsg "MQ" CriticalPriority],
            ackWaiters :=
              [("W1", AckWaiter.mk (sampleMsg "W1" HighPriority) 500),
               ("W2", AckWaiter.mk (sampleMsg "W2" HighPriority) 600),
               ("W3", AckWaiter.mk (sampleMsg "W3" HighPriority) 700)],
            pendingReward := 0 }
          1000, idleChannel, none) := by
  have h := (step_pending_window
    { initialAircraftState with
      outboundQueue := [sampleMsg "MQ" CriticalPriority],
      ackWaiters :=
        [("W1", AckWaiter.mk (sampleMsg "W1" HighPriority) 500),
         ("W2", AckWaiter.mk (sampleMsg "W2" HighPriority) 600),
         ("W3", AckWaiter.mk (sampleMsg "W3" HighPriority) 700)] }
    AgentAction.sendPrimary idleChannel none 1000).1
    (Or.inl rfl) (by decide) (by decide)
  rw [h]
  rfl

end AirSim

namespace AirSim

/-! ## C10: the ground station's expired-ACK sweep -/

lemma gccSweepLoop_eq_filter (now : Int) :
    ∀ (n : Nat) (q : List Msg) (i : Nat) (r : ℚ), q.length - i = n →
      (gccSweepLoop now q i r).1 =
        q.take i ++ (q.drop i).filter (fun m => !gccExpired now m) := by
  intro n
  induction n with
  | zero =>
    intro q i r h
    have hge : ¬ i < q.length := by omega
    unfold gccSweepLoop
    rw [dif_neg hge]
    dsimp only
    rw [List.drop_eq_nil_of_le (by omega), List.filter_nil,
      List.append_nil]
    exact (List.take_of_length_le (by omega)).symm
  | succ n ih =>
    intro q i r h
    have hi : i < q.length := by omega
    have hlen : (q.take i).length = i := by rw [List.length_take]; omega
    unfold gccSweepLoop
    rw [dif_pos hi]
    by_cases he : gccExpired now (q.get ⟨i, hi⟩) = true
    · rw [if_pos he,
        ih (q.eraseIdx i) i (r - 20)
          (by rw [List.length_eraseIdx_of_lt hi]; omega),
        List.eraseIdx_eq_take_drop_succ, List.take_left' hlen,
        List.drop_left' hlen, List.drop_eq_getElem_cons hi,
        List.filter_cons]
      have hq : (!gccExpired now q[i]) = false := by
        rw [show q[i] = q.get ⟨i, hi⟩ from rfl, he]
        rfl
      rw [hq]
      simp
    · rw [if_neg he,
        ih q (i + 1) r (by omega),
        List.take_succ, List.drop_eq_getElem_cons hi, List.filter_cons,
        List.getElem?_eq_getElem hi]
      have hq : (!gccExpired now q[i]) = true := by
        rw [show q[i] = q.get ⟨i, hi⟩ from rfl]
        simpa using he
      rw [hq]
      simp only [Option.toList_some, List.append_assoc,
        List.singleton_append]
      simp

lemma gccAttempt_queue_channel (g : GccState) (m : Msg) (b : Bool)
    (ch : ChannelState) (now : Int) :
    ((gccAttemptSendOnChannel g m b ch now).2.1.outboundQueue =
        g.outboundQueue ∨
      (gccAttemptSendOnChannel g m b ch now).2.1.outboundQueue =
        removeMessageFromQueue g.outboundQueue m.base.messageID) ∧
    ((gccAttemptSendOnChannel g m b ch now).2.2 = ch ∨
      (gccAttemptSendOnChannel g m b ch now).2.2.inTransit = some m) := by
  unfold gccAttemptSendOnChannel Channel.AttemptTransmit
  repeat' split
  all_goals simp_all

end AirSim

namespace AirSim

lemma gccStep_cases (g : GccState) (action : AgentAction)
    (primary : ChannelState) (backup : Option ChannelState) (now : Int) :
    ((gccStep g action primary backup now).2.1.outboundQueue =
        (gccSweepLoop now g.outboundQueue 0 0).1 ∨
      ∃ id, (gccStep g action primary backup now).2.1.outboundQueue =
        removeMessageFromQueue (gccSweepLoop now g.outboundQueue 0 0).1
          id) ∧
    ((gccStep g action primary backup now).2.2.1 = primary ∨
      ∃ mm, (gccStep g action primary backup now).2.2.1.inTransit =
          some mm ∧
        (gccSweepLoop now g.outboundQueue 0 0).1.head? = some mm) ∧
    ((gccStep g action primary backup now).2.2.2 = backup ∨
      ∃ mm b', (gccStep g action primary backup now).2.2.2 = some b' ∧
        b'.inTransit = some mm ∧
        (gccSweepLoop now g.outboundQueue 0 0).1.head? = some mm) := by
  cases action with
  | wait =>
    unfold gccStep
    dsimp only
    split
    · refine ⟨Or.inl ?_, Or.inl ?_, Or.inl ?_⟩ <;> split <;> rfl
    · exact ⟨Or.inl rfl, Or.inl rfl, Or.inl rfl⟩
  | sendPrimary =>
    unfold gccStep
    dsimp only
    split
    · refine ⟨Or.inl ?_, Or.inl ?_, Or.inl ?_⟩ <;> split <;> rfl
    · rename_i msgToSend hpk
      have hpk' : (gccSweepLoop now g.outboundQueue 0 0).1.head? =
          some msgToSend := by simpa using hpk
      have hq := gccAttempt_queue_channel
        { g with outboundQueue := (gccSweepLoop now g.outboundQueue 0 0).1 }
        msgToSend (Channel.IsBusy primary) primary now
      refine ⟨?_, ?_, Or.inl rfl⟩
      · rcases hq.1 with h | h
        · exact Or.inl (by simpa using h)
        · exact Or.inr ⟨msgToSend.base.messageID, by simpa using h⟩
      · rcases hq.2 with h | h
        · exact Or.inl h
        · exact Or.inr ⟨msgToSend, h, hpk'⟩
  | sendBackup =>
    cases backup with
    | none =>
      unfold gccStep
      dsimp only
      split
      · refine ⟨Or.inl ?_, Or.inl ?_, Or.inl ?_⟩ <;> split <;> rfl
      · exact ⟨Or.inl rfl, Or.inl rfl, Or.inl rfl⟩
    | some b =>
      unfold gccStep
      dsimp only
      split
      · refine ⟨Or.inl ?_, Or.inl ?_, Or.inl ?_⟩ <;> split <;> rfl
      · rename_i msgToSend hpk
        have hpk' : (gccSweepLoop now g.outboundQueue 0 0).1.head? =
            some msgToSend := by simpa using hpk
        have hq := gccAttempt_queue_channel
          { g with
            outboundQueue := (gccSweepLoop now g.outboundQueue 0 0).1 }
          msgToSend (Channel.IsBusy b) b now
        refine ⟨?_, Or.inl rfl, ?_⟩
        · rcases hq.1 with h | h
          · exact Or.inl (by simpa using h)
          · exact Or.inr ⟨msgToSend.base.messageID, by simpa using h⟩
        · rcases hq.2 with h | h
          · exact Or.inl (by rw [h])
          · exact Or.inr ⟨msgToSend, _, rfl, h, hpk'⟩

end AirSim

namespace AirSim

/-- C10: every `GroundControlCenter.Step` call first removes, before the
chosen action is applied, exactly the queued acknowledgments older than
`AckTimeout`: the post-sweep queue is the stable filter of the entry queue
(unexpired acknowledgments remain, in order); each expired acknowledgment
is discarded permanently — it is not in the final queue and is never handed
to a channel, any newly in-transit message being an unexpired member of the
entry queue. -/
theorem gccStep_sweeps_expired (g : GccState) (action : AgentAction)
    (primary : ChannelState) (backup : Option ChannelState) (now : Int) :
    ((gccSweepLoop now g.outboundQueue 0 0).1 =
      g.outboundQueue.filter (fun m => !gccExpired now m)) ∧
    (∀ m, m ∈ (gccStep g action primary backup now).2.1.outboundQueue →
      m ∈ g.outboundQueue.filter (fun m => !gccExpired now m)) ∧
    (∀ m, gccExpired now m = true →
      m ∉ (gccStep g action primary backup now).2.1.outboundQueue) ∧
    ((gccStep g action primary backup now).2.2.1 = primary ∨
      ∃ mm, (gccStep g action primary backup now).2.2.1.inTransit =
          some mm ∧
        mm ∈ g.outboundQueue ∧ gccExpired now mm = false) ∧
    ((gccStep g action primary backup now).2.2.2 = backup ∨
      ∃ mm b', (gccStep g action primary backup now).2.2.2 = some b' ∧
        b'.inTransit = some mm ∧ mm ∈ g.outboundQueue ∧
        gccExpired now mm = false) := by
  have hsw : (gccSweepLoop now g.outboundQueue 0 0).1 =
      g.outboundQueue.filter (fun m => !gccExpired now m) := by
    simpa using gccSweepLoop_eq_filter now g.outboundQueue.length
      g.outboundQueue 0 0 (by omega)
  obtain ⟨hq, hp, hb⟩ := gccStep_cases g action primary backup now
  have hmem : ∀ m,
      m ∈ (gccStep g action primary backup now).2.1.outboundQueue →
      m ∈ g.outboundQueue.filter (fun m => !gccExpired now m) := by
    intro m hm
    rcases hq with h | ⟨id, h⟩
    · rw [h, hsw] at hm
      exact hm
    · rw [h, hsw] at hm
      exact (removeMessage_sublist id _).subset hm
  have hhead : ∀ mm,
      (gccSweepLoop now g.outboundQueue 0 0).1.head? = some mm →
      mm ∈ g.outboundQueue ∧ gccExpired now mm = false := by
    intro mm h2
    have hmmf : mm ∈ g.outboundQueue.filter (fun m => !gccExpired now m) :=
      by
      rw [← hsw]
      exact List.mem_of_mem_head? (by simp [h2])
    obtain ⟨h3, h4⟩ := List.mem_filter.mp hmmf
    exact ⟨h3, by simpa using h4⟩
  refine ⟨hsw, hmem, ?_, ?_, ?_⟩
  · intro m hex hm
    have hmf := hmem m hm
    rw [List.mem_filter, hex] at hmf
    simp at hmf
  · rcases hp with h | ⟨mm, h1, h2⟩
    · exact Or.inl h
    · obtain ⟨h3, h4⟩ := hhead mm h2
      exact Or.inr ⟨mm, h1, h3, h4⟩
  · rcases hb with h | ⟨mm, b', h1, h2, h3⟩
    · exact Or.inl h
    · obtain ⟨h4, h5⟩ := hhead mm h3
      exact Or.inr ⟨mm, b', h1, h2, h4, h5⟩

/-- A queue holding one expired (`ACK-E`, created at time 0) and one fresh
(`ACK-F`, created at time 2000000000) acknowledgment (C10 witness). -/
def gccC10State : GccState :=
  { outboundQueue :=
      [{ sampleMsg "ACK-E" CriticalPriority with
         base := { (sampleMsg "ACK-E" CriticalPriority).base with
                   timestamp := 0 } },
       { sampleMsg "ACK-F" CriticalPriority with
         base := { (sampleMsg "ACK-F" CriticalPriority).base with
                   timestamp := 2000000000 } }],
    totalTxAttempts := 0, totalCollisions := 0, successfulTx := 0,
    totalRqTunnel := 0, totalFailRqTunnel := 0 }

/-- C10 witness: at time 4000000000 the sweep drops the expired `ACK-E` and
keeps `ACK-F`, and the expired acknowledgment is absent from the queue after
a `Wait` step. -/
theorem gccStep_sweeps_expired_witness :
    (gccSweepLoop 4000000000 gccC10State.outboundQueue 0 0).1 =
      [{ sampleMsg "ACK-F" CriticalPriority with
         base := { (sampleMsg "ACK-F" CriticalPriority).base with
                   timestamp := 2000000000 } }] ∧
    gccExpired 4000000000
      { sampleMsg "ACK-E" CriticalPriority with
        base := { (sampleMsg "ACK-E" CriticalPriority).base with
                  timestamp := 0 } } = true ∧
    ({ sampleMsg "ACK-E" CriticalPriority with
       base := { (sampleMsg "ACK-E" CriticalPriority).base with
                 timestamp := 0 } } ∉
      (gccStep gccC10State AgentAction.wait idleChannel none
        4000000000).2.1.outboundQueue) := by
  refine ⟨?_, by decide, ?_⟩
  · exact Eq.trans (gccStep_sweeps_expired gccC10State AgentAction.wait
      idleChannel none 4000000000).1 (by decide)
  · exact (gccStep_sweeps_expired gccC10State AgentAction.wait idleChannel
      none 4000000000).2.2.1 _ (by decide)

end AirSim
